import Mathlib

/-!
Shallow embedding of the payment settlement protocol of the shiri storefront
repository: the frontend payment modal poller (PaymentModal.verifyPayment,
storePayment, verifyCurrentPrice in OrderLookup.tsx), the verify-payment edge
endpoint (unnamed/part_000), and the reconciliation cron job with its Telegram
message queue (unnamed/part_001).  Pure control flow is translated directly;
network calls are modelled by oracles giving each call's outcome; the shared
token row is explicit state.
-/

/-! ## Token store data model -/

/-- Status values written to the payment_tokens table by the frontend:
'pending' at creation (storePayment) and 'unsuccessful' on QR expiry. -/
inductive TokenStatus
  | pending
  | fulfilled
  | unsuccessful
deriving DecidableEq, Repr, BEq

/-- One supabase update against the payment_tokens row: which fields the
update statement sets.  The sweep fulfillment update sets only used := true;
the expiry update sets status := 'unsuccessful' and used := true. -/
structure StoreUpdate where
  setStatus : Option TokenStatus
  setUsed : Option Bool
deriving DecidableEq, Repr, BEq

/-- The expiry-path update in PaymentModal (OrderLookup.tsx, countdown and
expiry timeout): update \x7b status: 'unsuccessful', used: true \x7d by md5,
with no guard on the current status or used value. -/
def expiryStoreUpdate : StoreUpdate :=
  { setStatus := some TokenStatus.unsuccessful, setUsed := some true }

/-! ## Frontend settlement poller: PaymentModal.verifyPayment
(OrderLookup.tsx, the verifyPayment arrow function) -/

/-- Local UI status of the payment modal (useState status). -/
inductive UiStatus
  | statusPending
  | success
  | checking
  | error
deriving DecidableEq, Repr, BEq

/-- Outcome of one axios.post to /api/verify-payment as seen by the modal:
either a resolved response carrying data.responseCode and an optional
data.error string, or a rejected promise (network error, or a non-2xx HTTP
status such as the 500 the endpoint returns on retry exhaustion). -/
inductive PollInput
  | response (responseCode : Int) (errorField : Option String)
  | transportError
deriving DecidableEq, Repr

/-- Effects of one verifyPayment invocation: UI status written (none = left
unchanged), error message shown, whether cleanup() ran (clearing the poll
interval, i.e. polling stops), supabase writes issued, and Telegram
notifications dispatched (chat id, text). -/
structure PollEffects where
  uiStatus : Option UiStatus
  errorMessage : Option String
  stopPolling : Bool
  storeUpdates : List StoreUpdate
  notifications : List (String × String)
  showSuccessAnimation : Bool
deriving DecidableEq, Repr

/-- Effects of a verifyPayment call that changes nothing and keeps polling. -/
def noPollEffects : PollEffects :=
  { uiStatus := none, errorMessage := none, stopPolling := false,
    storeUpdates := [], notifications := [], showSuccessAnimation := false }

/-- Effects of the responseCode 0 branch: setStatus('success'),
setShowSuccessAnimation(true), cleanup(). -/
def successPollEffects : PollEffects :=
  { uiStatus := some UiStatus.success, errorMessage := none,
    stopPolling := true, storeUpdates := [], notifications := [],
    showSuccessAnimation := true }

/-- Fallback message of the responseCode-else branch:
data.error or this default. -/
def pollFailureMsg : String :=
  "Payment verification failed. Please try again or contact support."

/-- Message set by the catch branch of verifyPayment. -/
def transportFailureMsg : String :=
  "Failed to verify payment. Please try again or contact support."

/-- Translation of PaymentModal.verifyPayment: early return when qrExpired;
responseCode 0 sets success and cleans up; responseCode 1 only logs;
any other code sets error with data.error (or the default) and cleans up;
a thrown request sets error with the transport message and cleans up.
No branch issues a supabase write or a notification. -/
def verifyPaymentStep (qrExpired : Bool) (input : PollInput) : PollEffects :=
  if qrExpired then noPollEffects
  else
    match input with
    | PollInput.response code errField =>
        if code = 0 then successPollEffects
        else if code = 1 then noPollEffects
        else
          { uiStatus := some UiStatus.error,
            errorMessage := some (errField.getD pollFailureMsg),
            stopPolling := true, storeUpdates := [], notifications := [],
            showSuccessAnimation := false }
    | PollInput.transportError =>
        { uiStatus := some UiStatus.error,
          errorMessage := some transportFailureMsg,
          stopPolling := true, storeUpdates := [], notifications := [],
          showSuccessAnimation := false }

/-! ## Verify-payment edge endpoint (unnamed/part_000) -/

/-- Outcome of one fetch of the Bakong check_transaction_by_md5 call:
a resolved response with an HTTP status and a JSON body (kept opaque),
or a thrown fetch (connection error). -/
inductive AttemptOutcome
  | respond (status : Nat) (body : String)
  | netError
deriving DecidableEq, Repr

/-- Response.ok of the fetch API: status in 200..299. -/
def respOk (s : Nat) : Bool := decide (200 ≤ s) && decide (s < 300)

/-- The endpoint's permanent-error test: status >= 400 && status < 500. -/
def isClientError (s : Nat) : Bool := decide (400 ≤ s) && decide (s < 500)

/-- An attempt outcome the loop retries: a thrown fetch, or a response that
is neither ok nor a 4xx. -/
def retriableOutcome : AttemptOutcome → Bool
  | AttemptOutcome.respond s _ => !respOk s && !isClientError s
  | AttemptOutcome.netError => true

/-- Result of the retry loop: a response passed through to the client
(with the HTTP status the endpoint responds with), or budget exhaustion. -/
inductive RetryResult
  | passthrough (status : Nat) (body : String)
  | exhausted
deriving DecidableEq, Repr

/-- Observable outcome of the retry loop: its result, the number of Bakong
attempts made, and the list of setTimeout delays slept between attempts. -/
structure RetryOutcome where
  result : RetryResult
  attemptsUsed : Nat
  delays : List Nat
deriving DecidableEq, Repr

/-- maxAttempts constant of the endpoint. -/
def maxAttempts : Nat := 3

/-- retryDelay constant of the endpoint (milliseconds). -/
def retryDelay : Nat := 1000

/-- Translation of the endpoint's while (attempts < maxAttempts) loop.
fuel bounds the recursion; the loop body runs at most maxAttempts times so
fuel = maxAttempts is exact.  ok responses return status 200 with the body;
4xx responses return immediately with the upstream status; other responses
and thrown fetches increment attempts and, when attempts < maxAttempts still
holds, sleep retryDelay before the next attempt. -/
def retryLoopGo (oracle : Nat → AttemptOutcome) :
    Nat → Nat → List Nat → RetryOutcome
  | 0, attempts, delays =>
      { result := RetryResult.exhausted, attemptsUsed := attempts,
        delays := delays.reverse }
  | fuel + 1, attempts, delays =>
      if attempts < maxAttempts then
        match oracle attempts with
        | AttemptOutcome.respond s b =>
            if respOk s then
              { result := RetryResult.passthrough 200 b,
                attemptsUsed := attempts + 1, delays := delays.reverse }
            else if isClientError s then
              { result := RetryResult.passthrough s b,
                attemptsUsed := attempts + 1, delays := delays.reverse }
            else
              retryLoopGo oracle fuel (attempts + 1)
                (if attempts + 1 < maxAttempts then retryDelay :: delays
                 else delays)
        | AttemptOutcome.netError =>
            retryLoopGo oracle fuel (attempts + 1)
              (if attempts + 1 < maxAttempts then retryDelay :: delays
               else delays)
      else
        { result := RetryResult.exhausted, attemptsUsed := attempts,
          delays := delays.reverse }

/-- The endpoint's retry loop, started at attempts = 0. -/
def retryLoop (oracle : Nat → AttemptOutcome) : RetryOutcome :=
  retryLoopGo oracle maxAttempts 0 []

/-- Body of the HTTP response the endpoint returns: an upstream body passed
through, or one of its two literal failure bodies, both of which carry
responseCode: 1. -/
inductive RespBody
  | upstream (body : String)
  | retryExhaustedBody
  | internalErrorBody
deriving DecidableEq, Repr

/-- responseCode field of the endpoint's own JSON bodies.  Both failure
bodies hard-code responseCode: 1; upstream bodies are opaque here. -/
def bodyResponseCode : RespBody → Option Int
  | RespBody.upstream _ => none
  | RespBody.retryExhaustedBody => some 1
  | RespBody.internalErrorBody => some 1

/-- HTTP response of the endpoint. -/
structure HttpResponse where
  status : Nat
  body : RespBody
deriving DecidableEq, Repr

/-- Parsed request body: request.json() either throws (landing in the outer
catch) or yields an md5 string. -/
inductive VerifyRequest
  | malformed
  | withMd5 (md5 : String)
deriving DecidableEq, Repr

/-- Translation of the endpoint handler's POST path: a malformed body hits
the outer catch and answers 500 with the internal-error body (responseCode 1);
otherwise the retry loop runs, a passthrough result is forwarded, and an
exhausted budget answers 500 with the retry-exhausted body (responseCode 1). -/
def verifyEndpoint (req : VerifyRequest)
    (oracle : Nat → AttemptOutcome) : HttpResponse :=
  match req with
  | VerifyRequest.malformed =>
      { status := 500, body := RespBody.internalErrorBody }
  | VerifyRequest.withMd5 _ =>
      match (retryLoop oracle).result with
      | RetryResult.passthrough s b =>
          { status := s, body := RespBody.upstream b }
      | RetryResult.exhausted =>
          { status := 500, body := RespBody.retryExhaustedBody }

/-- Response code the Bakong protocol uses for a still-pending payment:
the frontend poller's responseCode === 1 branch keeps polling on it. -/
def bakongPendingCode : Int := 1

/-! ## Reconciliation sweeper, per token (unnamed/part_001, handler loop) -/

/-- One row of the cron job's fetch (payment_tokens where used = false and
created_at within the 30-minute window): its id, the md5 inside order_data
(absent rows are skipped with continue), and the two message texts. -/
structure SweepToken where
  tokenId : Nat
  md5 : Option String
  mainMessage : String
  orderMessage : String
deriving DecidableEq, Repr

/-- Observable action the per-token sweep body performs, in order. -/
inductive SweepEvent
  | verifyCall (md5 : String)
  | storeSetUsed (tokenId : Nat) (value : Bool)
  | sendMessage (chatId : String) (text : String)
deriving DecidableEq, Repr, BEq

/-- Outcomes of the network calls one token's sweep body can make: the two
verifyPayment reads (true = Bakong answered ok with responseCode 0), whether
the supabase update returned without error, and whether each Telegram send
reported ok. -/
structure SweepOracle where
  verify1 : Bool
  verify2 : Bool
  updateOk : Bool
  mainSendOk : Bool
  ordersSendOk : Bool
deriving DecidableEq, Repr

/-- Entry the handler pushes into results for a fulfilled token. -/
structure SweepResultEntry where
  tokenId : Nat
  verified : Bool
  mainGroupSent : Bool
  ordersGroupSent : Bool
deriving DecidableEq, Repr

/-- Chat id of the main group (TELEGRAM_CHAT_ID environment value). -/
def mainChatId : String := "TELEGRAM_CHAT_ID"

/-- Hard-coded orders group chat id of the cron job. -/
def ordersChatId : String := "-1002399561845"

/-- Translation of the cron handler's per-token body: skip when order_data
has no md5; first verifyPayment read; on true a second read; on a second
true the supabase update used := true by id (unconditional, no guard on the
current used or status value); when the update errors, continue to the next
token with nothing sent; otherwise send the main-group and orders-group
messages and record a result entry with per-channel send flags. -/
def sweepTokenStep (t : SweepToken) (o : SweepOracle) :
    List SweepEvent × Option SweepResultEntry :=
  match t.md5 with
  | none => ([], none)
  | some h =>
      if o.verify1 then
        if o.verify2 then
          if o.updateOk then
            ([SweepEvent.verifyCall h, SweepEvent.verifyCall h,
              SweepEvent.storeSetUsed t.tokenId true,
              SweepEvent.sendMessage mainChatId t.mainMessage,
              SweepEvent.sendMessage ordersChatId t.orderMessage],
             some { tokenId := t.tokenId, verified := true,
                    mainGroupSent := o.mainSendOk,
                    ordersGroupSent := o.ordersSendOk })
          else
            ([SweepEvent.verifyCall h, SweepEvent.verifyCall h,
              SweepEvent.storeSetUsed t.tokenId true], none)
        else
          ([SweepEvent.verifyCall h, SweepEvent.verifyCall h], none)
      else
        ([SweepEvent.verifyCall h], none)

/-- Recognizer for a store write among sweep events. -/
def isStoreEvent : SweepEvent → Bool
  | SweepEvent.storeSetUsed _ _ => true
  | _ => false

/-- Recognizer for a store write that sets used to false (reverting). -/
def isStoreRevertEvent : SweepEvent → Bool
  | SweepEvent.storeSetUsed _ v => !v
  | _ => false

/-- Recognizer for a Telegram send among sweep events. -/
def isSendEvent : SweepEvent → Bool
  | SweepEvent.sendMessage _ _ => true
  | _ => false

/-! ## Fulfillment race model

The fulfillment transition in the source is a check-then-act: eligibility is
established by a read (the cron fetch filters on used = false; the expiry
path reads only its local md5), and the terminal write is an unconditional
update by id or md5 with no used/status condition and no affected-row check
(unnamed/part_001 update used := true; OrderLookup.tsx expiry update).  Two
contexts racing on the same hash are modelled as two two-step callers over
the shared used flag, interleaved by a schedule. -/

/-- Program counter and eligibility read of one tryFulfill-style caller:
pc 0 = before the eligibility read, pc 1 = read done (the double
verification and other awaits sit between read and write), pc 2 = done. -/
structure RaceCaller where
  pc : Nat
  eligible : Bool
deriving DecidableEq, Repr

/-- Shared token row (its used flag) plus both callers. -/
structure RaceState where
  used : Bool
  caller0 : RaceCaller
  caller1 : RaceCaller
deriving DecidableEq, Repr

/-- Initial state: token not yet used, both callers before their read. -/
def raceInit : RaceState :=
  { used := false,
    caller0 := { pc := 0, eligible := false },
    caller1 := { pc := 0, eligible := false } }

/-- One micro-step of a caller against the shared used flag: the read makes
the caller eligible exactly when used is still false (the fetch filter
.eq used false); the write then sets used := true unconditionally — the
update statement carries no used/status guard — and only runs when the
caller was eligible (an ineligible caller never saw the token). -/
def raceCallerStep (used : Bool) (c : RaceCaller) : Bool × RaceCaller :=
  match c.pc with
  | 0 => (used, { pc := 1, eligible := !used })
  | 1 =>
      if c.eligible then (true, { c with pc := 2 })
      else (used, { c with pc := 2 })
  | _ => (used, c)

/-- Run one micro-step of the scheduled caller (false = caller0). -/
def raceStep (s : RaceState) (which : Bool) : RaceState :=
  if which then
    let r := raceCallerStep s.used s.caller1
    { s with used := r.1, caller1 := r.2 }
  else
    let r := raceCallerStep s.used s.caller0
    { s with used := r.1, caller0 := r.2 }

/-- Run a schedule of caller micro-steps from a state. -/
def raceRun (sched : List Bool) (s : RaceState) : RaceState :=
  sched.foldl raceStep s

/-- A caller observes a newly-fulfilled outcome when it finished and its
eligibility read saw used = false: its unconditional update then reported
success and it proceeded to dispatch notifications. -/
def observesNewlyFulfilled (c : RaceCaller) : Bool :=
  decide (c.pc = 2) && c.eligible

/-! ## Telegram message queue (unnamed/part_001, sendTelegramMessage and
processMessageQueue) -/

/-- Entry of the module-level messageQueue. -/
structure QueuedMessage where
  chatId : String
  text : String
  retryCount : Nat
deriving DecidableEq, Repr

/-- Outcome of one call to the Telegram sendMessage endpoint: a resolved
response with ok true, a resolved response with ok false, or a thrown
fetch. -/
inductive SendOutcome
  | ok
  | notOk
  | exn
deriving DecidableEq, Repr

/-- MAX_RETRIES constant of the cron job. -/
def MAX_RETRIES : Nat := 3

/-- RETRY_DELAY constant of the cron job (milliseconds). -/
def RETRY_DELAY : Nat := 1000

/-- Translation of sendTelegramMessage: returns data.ok on a resolved
response; on a thrown fetch it pushes a copy with retryCount + 1 onto the
queue when retryCount < MAX_RETRIES, and returns false either way. -/
def sendTelegramModel (m : QueuedMessage) (out : SendOutcome) :
    Bool × List QueuedMessage :=
  match out with
  | SendOutcome.ok => (true, [])
  | SendOutcome.notOk => (false, [])
  | SendOutcome.exn =>
      if m.retryCount < MAX_RETRIES then
        (false, [{ m with retryCount := m.retryCount + 1 }])
      else (false, [])

/-- Observable outcome of a bounded run of the drain loop: whether the
while loop exited (queue emptied), the queue contents when the run stopped,
and how many send attempts were made. -/
structure DrainOutcome where
  finished : Bool
  queue : List QueuedMessage
  sends : Nat
deriving DecidableEq, Repr

/-- Translation of the while loop of processMessageQueue, run for at most
fuel iterations (the loop has no built-in bound); k indexes the oracle by
send attempt.  Each iteration sends the head; on success the head is
shifted; on failure the head is shifted only when its retryCount is already
at least MAX_RETRIES — its retryCount is never changed in place — and any
copy pushed by a thrown send stays appended at the tail. -/
def drainGo (oracle : Nat → SendOutcome) :
    Nat → Nat → List QueuedMessage → DrainOutcome
  | _, k, [] => { finished := true, queue := [], sends := k }
  | 0, k, m :: rest => { finished := false, queue := m :: rest, sends := k }
  | fuel + 1, k, m :: rest =>
      let sent := sendTelegramModel m (oracle k)
      let afterPush := m :: (rest ++ sent.2)
      let queue1 :=
        if sent.1 then rest ++ sent.2
        else if MAX_RETRIES ≤ m.retryCount then rest ++ sent.2
        else afterPush
      drainGo oracle fuel (k + 1) queue1

/-- Translation of processMessageQueue's entry: when isProcessingQueue is
already set (single flight) or the queue is empty, return at once with the
queue untouched and no send made; otherwise drain. -/
def processQueueModel (isProcessingQueue : Bool)
    (oracle : Nat → SendOutcome) (fuel : Nat)
    (q : List QueuedMessage) : DrainOutcome :=
  if isProcessingQueue then { finished := true, queue := q, sends := 0 }
  else drainGo oracle fuel 0 q

/-! ## Price re-verification and token creation
(OrderLookup.tsx, verifyCurrentPrice and storePayment) -/

/-- Math.round of the source, on rationals: round half away from zero on
the positive amounts involved, matching Mathlib round on x * 100. -/
def jsRound2 (x : ℚ) : ℚ := ((round (x * 100) : ℤ) : ℚ) / 100

/-- Translation of verifyCurrentPrice: a failed product fetch throws and
the catch returns null; a reseller session uses the reseller_prices row
when present and falls back to the standard price with a warning; a
non-reseller session uses the standard price. -/
def verifyCurrentPriceModel (productPrice : Option ℚ) (isReseller : Bool)
    (resellerPrice : Option ℚ) : Option ℚ :=
  match productPrice with
  | none => none
  | some p =>
      if isReseller then
        match resellerPrice with
        | some rp => some rp
        | none => some p
      else some p

/-- Expected final amount recomputed by storePayment:
Math.round(currentPrice * (100 - discountPercent) / 100 * 100) / 100. -/
def expectedFinalAmount (currentPrice discountPercent : ℚ) : ℚ :=
  jsRound2 (currentPrice * (100 - discountPercent) / 100)

/-- Outcome of storePayment: whether create_payment_token was invoked,
the token returned (none on any failure), the error message set, and
whether the modal status was set to error. -/
structure StorePaymentResult where
  createCalled : Bool
  token : Option String
  errorMessage : Option String
  uiError : Bool
deriving DecidableEq, Repr

/-- Error message thrown when the recomputed price deviates. -/
def priceChangedMsg : String :=
  "Price has changed. Please refresh and try again."

/-- Error message thrown when verifyCurrentPrice returned null. -/
def priceFetchFailedMsg : String := "Failed to verify current price"

/-- Translation of storePayment: null current price throws; a deviation
between the recomputed expected amount and the proposed finalAmount beyond
0.01 throws the price-changed error — in both cases the catch sets the
error status and create_payment_token is never reached; otherwise the rpc
runs and its failure or token is propagated. -/
def storePaymentModel (currentPrice : Option ℚ)
    (discountPercent finalAmount : ℚ)
    (createResult : Option String) : StorePaymentResult :=
  match currentPrice with
  | none =>
      { createCalled := false, token := none,
        errorMessage := some priceFetchFailedMsg, uiError := true }
  | some p =>
      if 1 / 100 < |expectedFinalAmount p discountPercent - finalAmount| then
        { createCalled := false, token := none,
          errorMessage := some priceChangedMsg, uiError := true }
      else
        match createResult with
        | none =>
            { createCalled := true, token := none,
              errorMessage := some "Failed to store payment", uiError := true }
        | some tok =>
            { createCalled := true, token := some tok,
              errorMessage := none, uiError := false }

/-! ## Helper lemmas -/

/-- Characterization of the sweep trace: a store write appears exactly when
the token has an md5 and both verification reads were settled. -/
theorem sweepTokenStep_store_char (t : SweepToken) (o : SweepOracle) :
    (sweepTokenStep t o).1.any isStoreEvent =
      (t.md5.isSome && o.verify1 && o.verify2) := by
  rcases t with ⟨i, md5, mm, om⟩
  rcases o with ⟨v1, v2, u, ms, os⟩
  cases md5 <;> cases v1 <;> cases v2 <;> cases u <;>
    simp [sweepTokenStep, isStoreEvent]

/-- Characterization of the sweep trace: a Telegram send appears exactly
when the token has an md5, both reads were settled, and the store update
succeeded. -/
theorem sweepTokenStep_send_char (t : SweepToken) (o : SweepOracle) :
    (sweepTokenStep t o).1.any isSendEvent =
      (t.md5.isSome && o.verify1 && o.verify2 && o.updateOk) := by
  rcases t with ⟨i, md5, mm, om⟩
  rcases o with ⟨v1, v2, u, ms, os⟩
  cases md5 <;> cases v1 <;> cases v2 <;> cases u <;>
    simp [sweepTokenStep, isSendEvent]

/-- Bound invariant of the endpoint retry loop: starting at or below
maxAttempts it never reports more than maxAttempts attempts. -/
theorem retryLoopGo_attempts_le (oracle : Nat → AttemptOutcome) :
    ∀ (fuel attempts : Nat) (delays : List Nat), attempts ≤ maxAttempts →
      (retryLoopGo oracle fuel attempts delays).attemptsUsed ≤ maxAttempts := by
  intro fuel
  induction fuel with
  | zero => intro attempts delays h; simpa [retryLoopGo] using h
  | succ n ih =>
      intro attempts delays h
      by_cases hlt : attempts < maxAttempts
      · rcases ho : oracle attempts with ⟨s, b⟩ | _
        · by_cases hok : respOk s = true
          · simp [retryLoopGo, hlt, ho, hok]
            omega
          · by_cases hcl : isClientError s = true
            · simp [retryLoopGo, hlt, ho, hok, hcl]
              omega
            · simp only [retryLoopGo, if_pos hlt, ho,
                Bool.not_eq_true] at hok hcl ⊢
              rw [hok, hcl]
              simp only [Bool.false_eq_true, if_false]
              exact ih _ _ (by omega)
        · simp only [retryLoopGo, if_pos hlt, ho]
          exact ih _ _ (by omega)
      · simp [retryLoopGo, hlt]
        omega

/-- One retried iteration of the endpoint loop: a retriable outcome
advances attempts and records the inter-attempt delay while further
attempts remain. -/
theorem retryLoopGo_retriable_step (oracle : Nat → AttemptOutcome)
    (fuel attempts : Nat) (delays : List Nat)
    (hlt : attempts < maxAttempts)
    (hr : retriableOutcome (oracle attempts) = true) :
    retryLoopGo oracle (fuel + 1) attempts delays =
      retryLoopGo oracle fuel (attempts + 1)
        (if attempts + 1 < maxAttempts then retryDelay :: delays
         else delays) := by
  rcases ho : oracle attempts with ⟨s, b⟩ | _
  · rw [ho] at hr
    simp only [retriableOutcome, Bool.and_eq_true, Bool.not_eq_true'] at hr
    simp [retryLoopGo, hlt, ho, hr.1, hr.2]
  · simp [retryLoopGo, hlt, ho]

/-- Terminal 4xx iteration of the endpoint loop: a client-error response is
passed through at once with its own status. -/
theorem retryLoopGo_clientError_hit (oracle : Nat → AttemptOutcome)
    (fuel attempts : Nat) (delays : List Nat)
    (hlt : attempts < maxAttempts) (s : Nat) (b : String)
    (ho : oracle attempts = AttemptOutcome.respond s b)
    (hcl : isClientError s = true) :
    retryLoopGo oracle (fuel + 1) attempts delays =
      { result := RetryResult.passthrough s b,
        attemptsUsed := attempts + 1, delays := delays.reverse } := by
  have h400 : 400 ≤ s ∧ s < 500 := by simpa [isClientError] using hcl
  have hlt300 : ¬ s < 300 := by omega
  have hok : respOk s = false := by
    simp [respOk, decide_eq_false hlt300]
  simp [retryLoopGo, hlt, ho, hok, hcl]

/-- Exhaustion of the endpoint retry budget: three retriable outcomes in a
row end the loop with the exhausted result, three attempts used, and a
retryDelay sleep between consecutive attempts. -/
theorem retryLoop_exhausted_of_retriable (oracle : Nat → AttemptOutcome)
    (h : ∀ j, j < maxAttempts → retriableOutcome (oracle j) = true) :
    retryLoop oracle =
      { result := RetryResult.exhausted, attemptsUsed := maxAttempts,
        delays := List.replicate (maxAttempts - 1) retryDelay } := by
  have h0 := h 0 (by decide)
  have h1 := h 1 (by decide)
  have h2 := h 2 (by decide)
  have e1 := retryLoopGo_retriable_step oracle 2 0 [] (by decide) h0
  have e2 := retryLoopGo_retriable_step oracle 1 1 [retryDelay] (by decide) h1
  have e3 := retryLoopGo_retriable_step oracle 0 2 [retryDelay, retryDelay]
    (by decide) h2
  norm_num [maxAttempts] at e1 e2 e3
  rw [retryLoop, show (maxAttempts : Nat) = 3 from rfl] at *
  rw [e1, e2, e3]
  rfl

/-! ## Claim theorems -/

/-- Claim C1, counterexample: the fulfillment step in the source is a
check-then-act (an eligibility read of used = false, then an unconditional
used := true update with no guard and no affected-row check), not an atomic
compare-and-set.  Under the interleaving read0, read1, write0, write1 both
concurrent callers on the same hash observe a newly-fulfilled outcome,
refuting that exactly one caller observes newly-fulfilled and every other
observes already-fulfilled. -/
theorem race_interleaved_double_fulfillment :
    observesNewlyFulfilled
      (raceRun [false, true, false, true] raceInit).caller0 = true ∧
    observesNewlyFulfilled
      (raceRun [false, true, false, true] raceInit).caller1 = true := by
  decide

/-- Claim C1, amended: the fulfillment step is a read of used = false
followed by an unconditional used := true write (check-then-set, not an
atomic compare-and-set); when the two callers on the same hash are
serialized — either order — exactly the first observes a newly-fulfilled
outcome and the second does not. -/
theorem serialized_fulfillment_exactly_one :
    ∀ first : Bool,
      observesNewlyFulfilled
        ((fun s => if first then s.caller1 else s.caller0)
          (raceRun [first, first, !first, !first] raceInit)) = true ∧
      observesNewlyFulfilled
        ((fun s => if first then s.caller0 else s.caller1)
          (raceRun [first, first, !first, !first] raceInit)) = false := by
  decide

/-- Claim C2, counterexample: on a confirmed settlement (responseCode 0)
the live poller issues no token-store call at all — in particular no
tryFulfill-style update — and dispatches no notification, refuting that it
calls tryFulfill and notifies on newly-fulfilled. -/
theorem live_poller_confirmed_no_store_call :
    (verifyPaymentStep false (PollInput.response 0 none)).storeUpdates
      = [] ∧
    (verifyPaymentStep false (PollInput.response 0 none)).notifications
      = [] := by
  decide

/-- Claim C2, amended: on responseCode 0 the live poller only stops polling
and marks its local state successful, touching neither the token store nor
the notification channels; the store transition and the notification
dispatch for the hash are performed by the reconciliation sweeper, which
sends notifications exactly when both verification reads settle and its
used := true update succeeds. -/
theorem confirmed_settlement_division_of_labor :
    verifyPaymentStep false (PollInput.response 0 none)
      = successPollEffects ∧
    successPollEffects.storeUpdates = [] ∧
    successPollEffects.notifications = [] ∧
    ∀ (t : SweepToken) (o : SweepOracle),
      (sweepTokenStep t o).1.any isSendEvent =
        (t.md5.isSome && o.verify1 && o.verify2 && o.updateOk) := by
  refine ⟨rfl, rfl, rfl, ?_⟩
  intro t o
  exact sweepTokenStep_send_char t o

/-- Claim C3: the reconciliation sweeper attempts the fulfillment write
exactly when both consecutive settlement checks report settled; when the
first check settles and the immediate second does not, the token gets no
store write, no notification, and no result entry. -/
theorem sweeper_requires_two_settled_reads :
    ∀ (t : SweepToken) (o : SweepOracle),
      ((sweepTokenStep t o).1.any isStoreEvent =
        (t.md5.isSome && o.verify1 && o.verify2)) ∧
      (o.verify2 = false →
        (sweepTokenStep t o).1.any isStoreEvent = false ∧
        (sweepTokenStep t o).1.any isSendEvent = false ∧
        (sweepTokenStep t o).2 = none) := by
  intro t o
  refine ⟨sweepTokenStep_store_char t o, ?_⟩
  intro hv2
  rcases t with ⟨i, md5, mm, om⟩
  rcases o with ⟨v1, v2, u, ms, os⟩
  cases v2
  · cases md5 <;> cases v1 <;> cases u <;>
      simp [sweepTokenStep, isStoreEvent, isSendEvent]
  · cases hv2

/-- Claim C3, witness: a token whose first check settles and whose second
check does not is left untouched: no store write, no send, no entry. -/
theorem sweeper_requires_two_settled_reads_witness :
    ((sweepTokenStep ⟨7, some "abc", "main", "order"⟩
        ⟨true, false, true, true, true⟩).1.any isStoreEvent =
      ((some "abc" : Option String).isSome && true && false)) ∧
    ((sweepTokenStep ⟨7, some "abc", "main", "order"⟩
        ⟨true, false, true, true, true⟩).1.any isStoreEvent = false ∧
     (sweepTokenStep ⟨7, some "abc", "main", "order"⟩
        ⟨true, false, true, true, true⟩).1.any isSendEvent = false ∧
     (sweepTokenStep ⟨7, some "abc", "main", "order"⟩
        ⟨true, false, true, true, true⟩).2 = none) :=
  ⟨(sweeper_requires_two_settled_reads ⟨7, some "abc", "main", "order"⟩
      ⟨true, false, true, true, true⟩).1,
   (sweeper_requires_two_settled_reads ⟨7, some "abc", "main", "order"⟩
      ⟨true, false, true, true, true⟩).2 rfl⟩

/-- Claim C4, counterexample: on a responseCode outside 0 and 1 the poller
does abort polling, but it issues no token-store write at all — the token's
status is not set to unsuccessful — refuting that part of the claim. -/
theorem other_code_aborts_without_store_write :
    (verifyPaymentStep false (PollInput.response 2 none)).stopPolling
      = true ∧
    (verifyPaymentStep false (PollInput.response 2 none)).storeUpdates
      = [] := by
  decide

/-- Claim C4, amended: each poll response is handled tri-state —
responseCode 0 stops polling and marks the payment successful, responseCode
1 continues polling with no effect, and any other code aborts polling and
surfaces data.error (or the default message) — but the failure branch only
sets the local error state and performs no token-store write. -/
theorem poll_response_tri_state :
    ∀ (code : Int) (errField : Option String),
      (code = 0 →
        verifyPaymentStep false (PollInput.response code errField)
          = successPollEffects) ∧
      (code = 1 →
        verifyPaymentStep false (PollInput.response code errField)
          = noPollEffects) ∧
      (code ≠ 0 → code ≠ 1 →
        verifyPaymentStep false (PollInput.response code errField) =
          { uiStatus := some UiStatus.error,
            errorMessage := some (errField.getD pollFailureMsg),
            stopPolling := true, storeUpdates := [], notifications := [],
            showSuccessAnimation := false }) := by
  intro code errField
  refine ⟨?_, ?_, ?_⟩
  · intro h0
    simp [verifyPaymentStep, h0]
  · intro h1
    simp [verifyPaymentStep, h1]
  · intro h0 h1
    simp [verifyPaymentStep, h0, h1]

/-- Claim C4, witness: the three branches evaluated at responseCodes 0, 1
and 2. -/
theorem poll_response_tri_state_witness :
    (verifyPaymentStep false (PollInput.response 0 none)
      = successPollEffects) ∧
    (verifyPaymentStep false (PollInput.response 1 none)
      = noPollEffects) ∧
    (verifyPaymentStep false (PollInput.response 2 none) =
      { uiStatus := some UiStatus.error,
        errorMessage := some ((none : Option String).getD pollFailureMsg),
        stopPolling := true, storeUpdates := [], notifications := [],
        showSuccessAnimation := false }) :=
  ⟨(poll_response_tri_state 0 none).1 rfl,
   (poll_response_tri_state 1 none).2.1 rfl,
   (poll_response_tri_state 2 none).2.2 (by decide) (by decide)⟩

/-- Claim C5, counterexample: a transport error on a poll attempt runs
cleanup (stopping the poll interval) and moves the modal state machine to
its terminal error state, refuting that polling continues after such an
error. -/
theorem transport_error_stops_polling :
    (verifyPaymentStep false PollInput.transportError).stopPolling
      = true ∧
    (verifyPaymentStep false PollInput.transportError).uiStatus
      = some UiStatus.error := by
  decide

/-- Claim C5, amended: a transport or network error on a poll attempt is
logged, aborts polling, and surfaces a support message in the modal, but it
issues no token-store write — the stored token stays pending and is left to
the reconciliation sweeper. -/
theorem transport_error_effects :
    verifyPaymentStep false PollInput.transportError =
      { uiStatus := some UiStatus.error,
        errorMessage := some transportFailureMsg,
        stopPolling := true, storeUpdates := [], notifications := [],
        showSuccessAnimation := false } := by
  rfl

/-- Claim C6: the verify-payment endpoint makes at most 3 Bakong attempts;
a 4xx response reached after any run of retriable outcomes is passed
through at once with no further attempts (one inter-attempt delay per
preceding retry); and when every attempt is retriable (5xx or a thrown
fetch) the loop runs the full budget of 3 attempts with a 1000 ms delay
between consecutive attempts. -/
theorem verify_endpoint_retry_policy :
    ∀ oracle : Nat → AttemptOutcome,
      ((retryLoop oracle).attemptsUsed ≤ maxAttempts) ∧
      (∀ (k s : Nat) (b : String), k < maxAttempts →
        (∀ j, j < k → retriableOutcome (oracle j) = true) →
        oracle k = AttemptOutcome.respond s b → isClientError s = true →
        retryLoop oracle =
          { result := RetryResult.passthrough s b, attemptsUsed := k + 1,
            delays := List.replicate k retryDelay }) ∧
      ((∀ j, j < maxAttempts → retriableOutcome (oracle j) = true) →
        retryLoop oracle =
          { result := RetryResult.exhausted, attemptsUsed := maxAttempts,
            delays := List.replicate (maxAttempts - 1) retryDelay }) := by
  intro oracle
  refine ⟨retryLoopGo_attempts_le oracle maxAttempts 0 [] (by decide), ?_,
    retryLoop_exhausted_of_retriable oracle⟩
  intro k s b hk hprev ho hcl
  have hk3 : k < 3 := hk
  interval_cases k
  · have h := retryLoopGo_clientError_hit oracle 2 0 [] (by decide) s b ho hcl
    simpa [retryLoop, maxAttempts, List.replicate] using h
  · have h0 := hprev 0 (by decide)
    have e1 := retryLoopGo_retriable_step oracle 2 0 [] (by decide) h0
    have h := retryLoopGo_clientError_hit oracle 1 1 [retryDelay]
      (by decide) s b ho hcl
    norm_num [maxAttempts] at e1
    rw [retryLoop, show (maxAttempts : Nat) = 3 from rfl, e1]
    simpa [List.replicate] using h
  · have h0 := hprev 0 (by decide)
    have h1 := hprev 1 (by decide)
    have e1 := retryLoopGo_retriable_step oracle 2 0 [] (by decide) h0
    have e2 := retryLoopGo_retriable_step oracle 1 1 [retryDelay]
      (by decide) h1
    have h := retryLoopGo_clientError_hit oracle 0 2 [retryDelay, retryDelay]
      (by decide) s b ho hcl
    norm_num [maxAttempts] at e1 e2
    rw [retryLoop, show (maxAttempts : Nat) = 3 from rfl, e1, e2]
    simpa [List.replicate] using h

/-- Claim C6, witness: a first-attempt 400 is passed through after exactly
one attempt, and an oracle that always throws exhausts the budget with
three attempts and two 1000 ms delays. -/
theorem verify_endpoint_retry_policy_witness :
    ((retryLoop fun _ => AttemptOutcome.respond 400 "denied").attemptsUsed
      ≤ maxAttempts) ∧
    (retryLoop (fun _ => AttemptOutcome.respond 400 "denied") =
      { result := RetryResult.passthrough 400 "denied", attemptsUsed := 1,
        delays := List.replicate 0 retryDelay }) ∧
    (retryLoop (fun _ => AttemptOutcome.netError) =
      { result := RetryResult.exhausted, attemptsUsed := maxAttempts,
        delays := List.replicate (maxAttempts - 1) retryDelay }) :=
  ⟨(verify_endpoint_retry_policy (fun _ => AttemptOutcome.respond 400 "denied")).1,
   (verify_endpoint_retry_policy (fun _ => AttemptOutcome.respond 400 "denied")).2.1
     0 400 "denied" (by decide) (fun j hj => absurd hj (Nat.not_lt_zero j))
     rfl (by decide),
   (verify_endpoint_retry_policy (fun _ => AttemptOutcome.netError)).2.2
     (fun _ _ => rfl)⟩

/-- Claim C7: when the re-read authoritative price (the reseller override
when present for a reseller session, the catalog price otherwise), with the
discount applied and rounded as the source rounds, deviates from the
client-proposed amount by more than 0.01, storePayment fails with the
price-changed error, create_payment_token is never invoked, and no token is
returned. -/
theorem price_deviation_refused :
    ∀ (productPrice q discountPercent finalAmount : ℚ) (isReseller : Bool)
      (resellerPrice : Option ℚ) (createResult : Option String),
      verifyCurrentPriceModel (some productPrice) isReseller resellerPrice
        = some q →
      1 / 100 < |expectedFinalAmount q discountPercent - finalAmount| →
      storePaymentModel
        (verifyCurrentPriceModel (some productPrice) isReseller resellerPrice)
        discountPercent finalAmount createResult =
        { createCalled := false, token := none,
          errorMessage := some priceChangedMsg, uiError := true } := by
  intro p q d fa r rp cr hq hdev
  rw [hq]
  simp only [storePaymentModel]
  rw [if_pos hdev]

/-- Claim C7, witness: the spec scenario — a proposed amount of 10.00
against a re-read catalog price of 12.00 with no discount — is refused with
the price-changed error and no token creation. -/
theorem price_deviation_refused_witness :
    storePaymentModel (verifyCurrentPriceModel (some 12) false none) 0 10
      (some "tok") =
      { createCalled := false, token := none,
        errorMessage := some priceChangedMsg, uiError := true } :=
  price_deviation_refused 12 12 0 10 false none (some "tok") rfl
    (by norm_num [expectedFinalAmount, jsRound2, round_eq])

/-- Claim C8: evaluation at the failing input.  A queued message with
retryCount 1 whose sends keep resolving with ok false is resent on every
iteration — ten sends in ten iterations — while the loop neither drops it
nor increments its retryCount nor terminates, contradicting the bounded
retry the drop branch of the code itself intends. -/
theorem drain_loop_stuck_on_failing_head :
    drainGo (fun _ => SendOutcome.notOk) 10 0
      [{ chatId := "chat", text := "order text", retryCount := 1 }] =
      { finished := false,
        queue := [{ chatId := "chat", text := "order text", retryCount := 1 }],
        sends := 10 } := by
  rfl

/-- Claim C9: in the sweep of one token, no notification send ever precedes
the used := true store write; no event ever writes used := false (a failed
or partially failed send reverts nothing); and when the store update errors
the token is skipped — no send happens and no result entry is recorded. -/
theorem sweep_update_precedes_notification :
    ∀ (t : SweepToken) (o : SweepOracle),
      (((sweepTokenStep t o).1.takeWhile
          (fun e => !isStoreEvent e)).any isSendEvent = false) ∧
      ((sweepTokenStep t o).1.any isStoreRevertEvent = false) ∧
      (((sweepTokenStep t o).1.dropWhile
          (fun e => !isSendEvent e)).any isStoreEvent = false) ∧
      (o.updateOk = false →
        (sweepTokenStep t o).1.any isSendEvent = false ∧
        (sweepTokenStep t o).2 = none) := by
  intro t o
  rcases t with ⟨i, md5, mm, om⟩
  rcases o with ⟨v1, v2, u, ms, os⟩
  cases md5 <;> cases v1 <;> cases v2 <;> cases u <;>
    simp [sweepTokenStep, isStoreEvent, isSendEvent, isStoreRevertEvent,
      List.takeWhile, List.dropWhile]

/-- Claim C9, witness: a token whose two reads settle but whose store
update errors is skipped with no send and no entry, and its trace has no
send before a store write and no used := false write. -/
theorem sweep_update_precedes_notification_witness :
    (((sweepTokenStep ⟨3, some "hash", "main", "order"⟩
        ⟨true, true, false, true, true⟩).1.takeWhile
        (fun e => !isStoreEvent e)).any isSendEvent = false) ∧
    ((sweepTokenStep ⟨3, some "hash", "main", "order"⟩
        ⟨true, true, false, true, true⟩).1.any isStoreRevertEvent = false) ∧
    ((sweepTokenStep ⟨3, some "hash", "main", "order"⟩
        ⟨true, true, false, true, true⟩).1.any isSendEvent = false ∧
     (sweepTokenStep ⟨3, some "hash", "main", "order"⟩
        ⟨true, true, false, true, true⟩).2 = none) :=
  ⟨(sweep_update_precedes_notification ⟨3, some "hash", "main", "order"⟩
      ⟨true, true, false, true, true⟩).1,
   (sweep_update_precedes_notification ⟨3, some "hash", "main", "order"⟩
      ⟨true, true, false, true, true⟩).2.1,
   (sweep_update_precedes_notification ⟨3, some "hash", "main", "order"⟩
      ⟨true, true, false, true, true⟩).2.2.2 rfl⟩

/-- Claim C10: when the retry budget is exhausted, and likewise when the
request body cannot be parsed (an internal exception reaching the outer
catch), the endpoint answers HTTP 500 with a JSON body whose responseCode
is 1 — exactly the code the Bakong protocol uses for a still-pending
payment, the code on which the frontend poller keeps polling — so a caller
reading only the body cannot tell a hard backend failure from an unsettled
payment. -/
theorem backend_failure_reports_pending_code :
    ∀ (oracle : Nat → AttemptOutcome) (m : String),
      ((∀ j, j < maxAttempts → retriableOutcome (oracle j) = true) →
        verifyEndpoint (VerifyRequest.withMd5 m) oracle =
          { status := 500, body := RespBody.retryExhaustedBody }) ∧
      (verifyEndpoint VerifyRequest.malformed oracle =
        { status := 500, body := RespBody.internalErrorBody }) ∧
      bodyResponseCode RespBody.retryExhaustedBody
        = some bakongPendingCode ∧
      bodyResponseCode RespBody.internalErrorBody
        = some bakongPendingCode ∧
      verifyPaymentStep false (PollInput.response bakongPendingCode none)
        = noPollEffects := by
  intro oracle m
  refine ⟨?_, rfl, rfl, rfl, rfl⟩
  intro h
  simp [verifyEndpoint, retryLoop_exhausted_of_retriable oracle h]

/-- Claim C10, witness: with every Bakong attempt throwing, the endpoint
answers 500 with the retry-exhausted body, whose responseCode is the
pending code. -/
theorem backend_failure_reports_pending_code_witness :
    (verifyEndpoint (VerifyRequest.withMd5 "d41d8cd9")
        (fun _ => AttemptOutcome.netError) =
      { status := 500, body := RespBody.retryExhaustedBody }) ∧
    (verifyEndpoint VerifyRequest.malformed
        (fun _ => AttemptOutcome.netError) =
      { status := 500, body := RespBody.internalErrorBody }) ∧
    bodyResponseCode RespBody.retryExhaustedBody = some bakongPendingCode :=
  ⟨(backend_failure_reports_pending_code (fun _ => AttemptOutcome.netError)
      "d41d8cd9").1 (fun _ _ => rfl),
   (backend_failure_reports_pending_code (fun _ => AttemptOutcome.netError)
      "d41d8cd9").2.1,
   (backend_failure_reports_pending_code (fun _ => AttemptOutcome.netError)
      "d41d8cd9").2.2.1⟩
